import Mathlib

/-!
Shallow embedding of the Harvest-Seer crop risk scoring core
(src/backend/risk_calculator.py, src/backend/recommendations.py,
src/backend/model.py, src/backend/app.py).  Python floats are modelled
by rationals; every arithmetic operation appearing in the embedded code
is exact on the inputs the theorems quantify over.
-/

namespace HarvestSeer

/-- The five environmental factor keys, in the insertion order of the
Python dictionaries that hold per-factor data. -/
inductive Factor
  | temperature
  | moisture
  | humidity
  | ndvi
  | rainfall
deriving DecidableEq, Repr

/-- A fully populated crop record of data/crop_database.json as consumed by
RiskCalculator: a category string plus an optimal value and tolerance for
each of the five factors. -/
structure CropProfile where
  category : String
  optimal_temp : ℚ
  temp_tolerance : ℚ
  optimal_moisture : ℚ
  moisture_tolerance : ℚ
  optimal_humidity : ℚ
  humidity_tolerance : ℚ
  optimal_ndvi : ℚ
  ndvi_tolerance : ℚ
  optimal_rainfall : ℚ
  rainfall_tolerance : ℚ
deriving DecidableEq, Repr

/-- RiskCalculator._calculate_temperature_risk: normalized absolute deviation
clamped to 1, then a +0.2 bonus reclamped to 1 when the temperature lies more
than two tolerances above or below the optimum. -/
def calcTemperatureRisk (temperature : ℚ) (c : CropProfile) : ℚ :=
  let deviation := |temperature - c.optimal_temp|
  let risk := min (deviation / c.temp_tolerance) 1
  if temperature > c.optimal_temp + c.temp_tolerance * 2 then
    min (risk + 0.2) 1
  else if temperature < c.optimal_temp - c.temp_tolerance * 2 then
    min (risk + 0.2) 1
  else
    risk

/-- RiskCalculator._calculate_moisture_risk: normalized absolute deviation
clamped to 1, then a +0.3 bonus reclamped to 1 for very dry conditions. -/
def calcMoistureRisk (moisture : ℚ) (c : CropProfile) : ℚ :=
  let deviation := |moisture - c.optimal_moisture|
  let risk := min (deviation / c.moisture_tolerance) 1
  if moisture < c.optimal_moisture - c.moisture_tolerance then
    min (risk + 0.3) 1
  else
    risk

/-- RiskCalculator._calculate_humidity_risk: normalized absolute deviation
clamped to 1, no bonus. -/
def calcHumidityRisk (humidity : ℚ) (c : CropProfile) : ℚ :=
  let deviation := |humidity - c.optimal_humidity|
  min (deviation / c.humidity_tolerance) 1

/-- RiskCalculator._calculate_ndvi_risk: below the optimum the deviation is
normalized by the tolerance and clamped to 1; at or above the optimum it is
normalized by twice the tolerance and clamped to 0.5. -/
def calcNdviRisk (ndvi : ℚ) (c : CropProfile) : ℚ :=
  if ndvi < c.optimal_ndvi then
    min ((c.optimal_ndvi - ndvi) / c.ndvi_tolerance) 1
  else
    min ((ndvi - c.optimal_ndvi) / (c.ndvi_tolerance * 2)) 0.5

/-- RiskCalculator._calculate_rainfall_risk: normalized absolute deviation
clamped to 1, then a +0.2 bonus reclamped to 1 for drought conditions. -/
def calcRainfallRisk (rainfall : ℚ) (c : CropProfile) : ℚ :=
  let deviation := |rainfall - c.optimal_rainfall|
  let risk := min (deviation / c.rainfall_tolerance) 1
  if rainfall < c.optimal_rainfall - c.rainfall_tolerance then
    min (risk + 0.2) 1
  else
    risk

/-- A category weight table: one weight per factor, in the insertion order of
the Python dictionaries. -/
structure Weights where
  temperature : ℚ
  moisture : ℚ
  humidity : ℚ
  ndvi : ℚ
  rainfall : ℚ
deriving DecidableEq, Repr

/-- Sum of the five weights of a table. -/
def wSum (w : Weights) : ℚ :=
  w.temperature + w.moisture + w.humidity + w.ndvi + w.rainfall

/-- RiskCalculator._get_category_weights: the four fixed tables, with
dict.get defaulting to the moderate_moisture table on any other string. -/
def getCategoryWeights (category : String) : Weights :=
  if category = "high_moisture" then
    ⟨0.15, 0.35, 0.20, 0.20, 0.10⟩
  else if category = "moderate_moisture" then
    ⟨0.20, 0.25, 0.20, 0.25, 0.10⟩
  else if category = "drought_tolerant" then
    ⟨0.30, 0.15, 0.20, 0.25, 0.10⟩
  else if category = "temperature_sensitive" then
    ⟨0.35, 0.20, 0.15, 0.20, 0.10⟩
  else
    ⟨0.20, 0.25, 0.20, 0.25, 0.10⟩

/-- RiskCalculator._get_risk_level: thresholds at 0.3 and 0.6. -/
def getRiskLevel (risk_score : ℚ) : String :=
  if risk_score < 0.3 then "Low Risk"
  else if risk_score < 0.6 then "Medium Risk"
  else "High Risk"

/-- Position of a factor in the Python dict insertion order
temperature, moisture, humidity, ndvi, rainfall. -/
def factorIdx : Factor → ℕ
  | .temperature => 0
  | .moisture => 1
  | .humidity => 2
  | .ndvi => 3
  | .rainfall => 4

/-- The factor keys in Python dict insertion order. -/
def factorOrder : List Factor :=
  [.temperature, .moisture, .humidity, .ndvi, .rainfall]

/-- Python max(iterable, key=get): keeps the current best and replaces it only
on a strictly greater value, so the first maximum encountered wins. -/
def maxKey (f : Factor → ℚ) : List Factor → Factor → Factor
  | [], best => best
  | k :: ks, best => maxKey f ks (if f k > f best then k else best)

/-- max(factor_risks, key=factor_risks.get) over the insertion-ordered keys. -/
def weakestFactor (f : Factor → ℚ) : Factor :=
  maxKey f [.moisture, .humidity, .ndvi, .rainfall] .temperature

/-- The record returned by RiskCalculator.calculate_risk_score. -/
structure RiskAnalysis where
  risk_score : ℚ
  risk_level : String
  factor_risks : Factor → ℚ
  weights : Weights
  weakest_factor : Factor
  current_values : Factor → ℚ

/-- RiskCalculator.calculate_risk_score: per-factor risks, category weights,
weighted sum clamped to the unit interval, risk level, weakest factor and an
echo of the current values. -/
def calculate_risk_score (c : CropProfile)
    (temperature moisture humidity ndvi rainfall : ℚ) : RiskAnalysis :=
  let temp_risk := calcTemperatureRisk temperature c
  let moisture_risk := calcMoistureRisk moisture c
  let humidity_risk := calcHumidityRisk humidity c
  let ndvi_risk := calcNdviRisk ndvi c
  let rainfall_risk := calcRainfallRisk rainfall c
  let weights := getCategoryWeights c.category
  let score :=
    weights.temperature * temp_risk +
    weights.moisture * moisture_risk +
    weights.humidity * humidity_risk +
    weights.ndvi * ndvi_risk +
    weights.rainfall * rainfall_risk
  let risk_score := max 0 (min 1 score)
  let factor_risks : Factor → ℚ := fun k =>
    match k with
    | .temperature => temp_risk
    | .moisture => moisture_risk
    | .humidity => humidity_risk
    | .ndvi => ndvi_risk
    | .rainfall => rainfall_risk
  { risk_score := risk_score
    risk_level := getRiskLevel risk_score
    factor_risks := factor_risks
    weights := weights
    weakest_factor := weakestFactor factor_risks
    current_values := fun k =>
      match k with
      | .temperature => temperature
      | .moisture => moisture
      | .humidity => humidity
      | .ndvi => ndvi
      | .rainfall => rainfall }

/-- A concrete catalog record matching the spec scenarios: optimal_temp 20 with
temp_tolerance 5 (Scenario A) and optimal_ndvi 0.6 with ndvi_tolerance 0.2
(Scenario C). -/
def scenarioCrop : CropProfile :=
  ⟨"temperature_sensitive", 20, 5, 0.6, 0.2, 70, 10, 0.6, 0.2, 1, 0.5⟩

lemma min_one_mem {x : ℚ} (hx : 0 ≤ x) : 0 ≤ min x 1 ∧ min x 1 ≤ 1 :=
  ⟨le_min hx zero_le_one, min_le_right _ _⟩

lemma min_add_clamp_eq {d tol b : ℚ} (htol : 0 < tol) (hd : tol < d)
    (hb : 0 ≤ b) : min (min (d / tol) 1 + b) 1 = min (d / tol) 1 := by
  have h1 : (1 : ℚ) ≤ d / tol := (one_le_div htol).2 hd.le
  rw [min_eq_right h1, min_eq_right (by linarith)]

/-- C6: for positive temperature tolerance, the temperature factor risk is
min(|t − opt|/tol, 1) with the +0.2 bonus (reclamped to 1) applied exactly
when |t − opt| > 2·tol; and on Scenario A (opt 20, tol 5, observed 35) the
risk is exactly 1. -/
theorem c6_temperature_risk_spec (c : CropProfile) (t : ℚ)
    (ht : 0 < c.temp_tolerance) :
    (calcTemperatureRisk t c =
      if 2 * c.temp_tolerance < |t - c.optimal_temp| then
        min (min (|t - c.optimal_temp| / c.temp_tolerance) 1 + 0.2) 1
      else
        min (|t - c.optimal_temp| / c.temp_tolerance) 1) ∧
    calcTemperatureRisk 35 scenarioCrop = 1 := by
  constructor
  · rcases abs_cases (t - c.optimal_temp) with ⟨he, hs⟩ | ⟨he, hs⟩ <;>
      · simp only [calcTemperatureRisk, he]
        split_ifs <;> first | rfl | linarith
  · norm_num [calcTemperatureRisk, scenarioCrop]

theorem c6_temperature_risk_spec_witness :
    0 < scenarioCrop.temp_tolerance ∧
    ((calcTemperatureRisk 35 scenarioCrop =
      if 2 * scenarioCrop.temp_tolerance < |35 - scenarioCrop.optimal_temp| then
        min (min (|35 - scenarioCrop.optimal_temp| / scenarioCrop.temp_tolerance)
          1 + 0.2) 1
      else
        min (|35 - scenarioCrop.optimal_temp| / scenarioCrop.temp_tolerance) 1) ∧
    calcTemperatureRisk 35 scenarioCrop = 1) :=
  ⟨by norm_num [scenarioCrop], c6_temperature_risk_spec scenarioCrop 35 (by norm_num [scenarioCrop])⟩

/-- C7: for positive ndvi tolerance, the ndvi factor risk is
min((opt − ndvi)/tol, 1) below the optimum and min((ndvi − opt)/(2·tol), 0.5)
at or above it, hence never exceeds 0.5 above the optimum; and on Scenario C
(opt 0.6, tol 0.2, observed 0.75) the risk is exactly 0.375. -/
theorem c7_ndvi_risk_spec (c : CropProfile) (ndvi : ℚ)
    (ht : 0 < c.ndvi_tolerance) :
    (ndvi < c.optimal_ndvi →
      calcNdviRisk ndvi c = min ((c.optimal_ndvi - ndvi) / c.ndvi_tolerance) 1) ∧
    (c.optimal_ndvi ≤ ndvi →
      calcNdviRisk ndvi c =
        min ((ndvi - c.optimal_ndvi) / (2 * c.ndvi_tolerance)) 0.5) ∧
    (c.optimal_ndvi ≤ ndvi → calcNdviRisk ndvi c ≤ 0.5) ∧
    calcNdviRisk 0.75 scenarioCrop = 0.375 := by
  refine ⟨fun hlt => ?_, fun hge => ?_, fun hge => ?_, ?_⟩
  · simp only [calcNdviRisk, if_pos hlt]
  · simp only [calcNdviRisk, if_neg (not_lt.2 hge)]
    rw [mul_comm]
  · simp only [calcNdviRisk, if_neg (not_lt.2 hge)]
    exact min_le_right _ _
  · norm_num [calcNdviRisk, scenarioCrop]

theorem c7_ndvi_risk_spec_witness :
    0 < scenarioCrop.ndvi_tolerance ∧
    ((0.75 < scenarioCrop.optimal_ndvi →
      calcNdviRisk 0.75 scenarioCrop =
        min ((scenarioCrop.optimal_ndvi - 0.75) / scenarioCrop.ndvi_tolerance) 1) ∧
    (scenarioCrop.optimal_ndvi ≤ 0.75 →
      calcNdviRisk 0.75 scenarioCrop =
        min ((0.75 - scenarioCrop.optimal_ndvi) / (2 * scenarioCrop.ndvi_tolerance)) 0.5) ∧
    (scenarioCrop.optimal_ndvi ≤ 0.75 → calcNdviRisk 0.75 scenarioCrop ≤ 0.5) ∧
    calcNdviRisk 0.75 scenarioCrop = 0.375) :=
  ⟨by norm_num [scenarioCrop], c7_ndvi_risk_spec scenarioCrop 0.75 (by norm_num [scenarioCrop])⟩

/-- Modelled from the spec claim for C10 only, to be compared with the source
definitions: the bonus-free per-factor formula min(|v − opt|/tol, 1). -/
def simpleDeviationRisk (v opt tol : ℚ) : ℚ :=
  min (|v - opt| / tol) 1

/-- C10: with positive tolerances, the temperature, moisture and rainfall
factor risks each coincide exactly with the bonus-free formula
min(|v − opt|/tol, 1): whenever a bonus branch fires the base risk is already
clamped at 1, so the reclamped additions never change the result. -/
theorem c10_bonus_free_equivalence (c : CropProfile) (vt vm vr : ℚ)
    (h1 : 0 < c.temp_tolerance) (h2 : 0 < c.moisture_tolerance)
    (h3 : 0 < c.rainfall_tolerance) :
    calcTemperatureRisk vt c = simpleDeviationRisk vt c.optimal_temp c.temp_tolerance ∧
    calcMoistureRisk vm c = simpleDeviationRisk vm c.optimal_moisture c.moisture_tolerance ∧
    calcRainfallRisk vr c = simpleDeviationRisk vr c.optimal_rainfall c.rainfall_tolerance := by
  refine ⟨?_, ?_, ?_⟩
  · simp only [calcTemperatureRisk, simpleDeviationRisk]
    split_ifs with ha hb
    · refine min_add_clamp_eq h1 ?_ (by norm_num)
      have := le_abs_self (vt - c.optimal_temp)
      linarith
    · refine min_add_clamp_eq h1 ?_ (by norm_num)
      have := neg_abs_le (vt - c.optimal_temp)
      linarith
    · rfl
  · simp only [calcMoistureRisk, simpleDeviationRisk]
    split_ifs with ha
    · refine min_add_clamp_eq h2 ?_ (by norm_num)
      have := neg_abs_le (vm - c.optimal_moisture)
      linarith
    · rfl
  · simp only [calcRainfallRisk, simpleDeviationRisk]
    split_ifs with ha
    · refine min_add_clamp_eq h3 ?_ (by norm_num)
      have := neg_abs_le (vr - c.optimal_rainfall)
      linarith
    · rfl

theorem c10_bonus_free_equivalence_witness :
    0 < scenarioCrop.temp_tolerance ∧ 0 < scenarioCrop.moisture_tolerance ∧
    0 < scenarioCrop.rainfall_tolerance ∧
    (calcTemperatureRisk 35 scenarioCrop =
      simpleDeviationRisk 35 scenarioCrop.optimal_temp scenarioCrop.temp_tolerance ∧
    calcMoistureRisk 0.3 scenarioCrop =
      simpleDeviationRisk 0.3 scenarioCrop.optimal_moisture scenarioCrop.moisture_tolerance ∧
    calcRainfallRisk 0.1 scenarioCrop =
      simpleDeviationRisk 0.1 scenarioCrop.optimal_rainfall scenarioCrop.rainfall_tolerance) :=
  ⟨by norm_num [scenarioCrop], by norm_num [scenarioCrop], by norm_num [scenarioCrop],
    c10_bonus_free_equivalence scenarioCrop 35 0.3 0.1
      (by norm_num [scenarioCrop]) (by norm_num [scenarioCrop]) (by norm_num [scenarioCrop])⟩

/-- C9: every table returned by the category weight lookup sums to exactly 1
(hence to 1 within 1e-9), and any category outside the four known ones maps to
exactly the moderate_moisture table. -/
theorem c9_category_weights_default_and_sum (category : String) :
    wSum (getCategoryWeights category) = 1 ∧
    |wSum (getCategoryWeights category) - 1| ≤ 1 / 1000000000 ∧
    (category ∉ ["high_moisture", "moderate_moisture", "drought_tolerant",
        "temperature_sensitive"] →
      getCategoryWeights category = ⟨0.20, 0.25, 0.20, 0.25, 0.10⟩) := by
  unfold getCategoryWeights wSum
  split_ifs with hc1 hc2 hc3 hc4 <;>
    refine ⟨by norm_num, by norm_num, fun hmem => ?_⟩ <;> simp_all

theorem c9_category_weights_default_and_sum_witness :
    "alpine" ∉ ["high_moisture", "moderate_moisture", "drought_tolerant",
      "temperature_sensitive"] ∧
    (wSum (getCategoryWeights "alpine") = 1 ∧
    |wSum (getCategoryWeights "alpine") - 1| ≤ 1 / 1000000000 ∧
    ("alpine" ∉ ["high_moisture", "moderate_moisture", "drought_tolerant",
        "temperature_sensitive"] →
      getCategoryWeights "alpine" = ⟨0.20, 0.25, 0.20, 0.25, 0.10⟩)) :=
  ⟨by simp, c9_category_weights_default_and_sum "alpine"⟩

lemma weakestFactor_first_argmax (f : Factor → ℚ) :
    (∀ k : Factor, f k ≤ f (weakestFactor f)) ∧
    (∀ k : Factor, factorIdx k < factorIdx (weakestFactor f) →
      f k < f (weakestFactor f)) := by
  simp only [weakestFactor, maxKey]
  split_ifs <;>
    refine ⟨fun k => ?_, fun k hk => ?_⟩ <;>
    cases k <;>
    simp only [factorIdx] at * <;>
    first | linarith | omega

/-- C4: in every assessment produced by the rule engine, the returned
weakest_factor attains the maximum of the five factor risks, and every factor
strictly earlier in the precedence order temperature, moisture, humidity,
ndvi, rainfall has a strictly smaller risk — i.e. the first maximum in that
order wins ties. -/
theorem c4_weakest_factor_first_argmax (c : CropProfile)
    (t m h n r : ℚ) :
    (∀ k : Factor,
      (calculate_risk_score c t m h n r).factor_risks k ≤
        (calculate_risk_score c t m h n r).factor_risks
          (calculate_risk_score c t m h n r).weakest_factor) ∧
    (∀ k : Factor,
      factorIdx k < factorIdx (calculate_risk_score c t m h n r).weakest_factor →
      (calculate_risk_score c t m h n r).factor_risks k <
        (calculate_risk_score c t m h n r).factor_risks
          (calculate_risk_score c t m h n r).weakest_factor) :=
  weakestFactor_first_argmax (calculate_risk_score c t m h n r).factor_risks

lemma calcTemperatureRisk_mem (c : CropProfile) (t : ℚ)
    (h : 0 < c.temp_tolerance) :
    0 ≤ calcTemperatureRisk t c ∧ calcTemperatureRisk t c ≤ 1 := by
  have hbase := min_one_mem (div_nonneg (abs_nonneg (t - c.optimal_temp)) h.le)
  simp only [calcTemperatureRisk]
  split_ifs
  · exact ⟨le_min (by linarith [hbase.1]) zero_le_one, min_le_right _ _⟩
  · exact ⟨le_min (by linarith [hbase.1]) zero_le_one, min_le_right _ _⟩
  · exact hbase

lemma calcMoistureRisk_mem (c : CropProfile) (m : ℚ)
    (h : 0 < c.moisture_tolerance) :
    0 ≤ calcMoistureRisk m c ∧ calcMoistureRisk m c ≤ 1 := by
  have hbase := min_one_mem (div_nonneg (abs_nonneg (m - c.optimal_moisture)) h.le)
  simp only [calcMoistureRisk]
  split_ifs
  · exact ⟨le_min (by linarith [hbase.1]) zero_le_one, min_le_right _ _⟩
  · exact hbase

lemma calcHumidityRisk_mem (c : CropProfile) (hu : ℚ)
    (h : 0 < c.humidity_tolerance) :
    0 ≤ calcHumidityRisk hu c ∧ calcHumidityRisk hu c ≤ 1 :=
  min_one_mem (div_nonneg (abs_nonneg (hu - c.optimal_humidity)) h.le)

lemma calcNdviRisk_mem (c : CropProfile) (n : ℚ)
    (h : 0 < c.ndvi_tolerance) :
    0 ≤ calcNdviRisk n c ∧ calcNdviRisk n c ≤ 1 := by
  simp only [calcNdviRisk]
  split_ifs with hlt
  · exact min_one_mem (div_nonneg (by linarith) h.le)
  · refine ⟨le_min (div_nonneg (by linarith) (by linarith)) (by norm_num),
      (min_le_right _ _).trans (by norm_num)⟩

lemma calcRainfallRisk_mem (c : CropProfile) (r : ℚ)
    (h : 0 < c.rainfall_tolerance) :
    0 ≤ calcRainfallRisk r c ∧ calcRainfallRisk r c ≤ 1 := by
  have hbase := min_one_mem (div_nonneg (abs_nonneg (r - c.optimal_rainfall)) h.le)
  simp only [calcRainfallRisk]
  split_ifs
  · exact ⟨le_min (by linarith [hbase.1]) zero_le_one, min_le_right _ _⟩
  · exact hbase

lemma getRiskLevel_iff (s : ℚ) :
    (getRiskLevel s = "Low Risk" ↔ s < 0.3) ∧
    (getRiskLevel s = "Medium Risk" ↔ 0.3 ≤ s ∧ s < 0.6) ∧
    (getRiskLevel s = "High Risk" ↔ 0.6 ≤ s) := by
  unfold getRiskLevel
  split_ifs with hs1 hs2 <;>
    refine ⟨⟨fun he => ?_, fun he => ?_⟩, ⟨fun he => ?_, fun he => ?_⟩,
      ⟨fun he => ?_, fun he => ?_⟩⟩ <;>
    simp_all <;> linarith

/-- C3: for every crop with strictly positive tolerances and every
observation, the rule engine returns a risk_score in [0,1] and all five
factor risks in [0,1], and the returned risk_level is exactly the threshold
function of the risk_score (Low iff < 0.3, Medium iff in [0.3, 0.6), High iff
≥ 0.6), with the boundary cases 0.2999 Low, 0.3 Medium, 0.5999 Medium,
0.6 High. -/
theorem c3_rule_engine_bounds_levels (c : CropProfile) (t m hu n r : ℚ)
    (h1 : 0 < c.temp_tolerance) (h2 : 0 < c.moisture_tolerance)
    (h3 : 0 < c.humidity_tolerance) (h4 : 0 < c.ndvi_tolerance)
    (h5 : 0 < c.rainfall_tolerance) :
    (0 ≤ (calculate_risk_score c t m hu n r).risk_score ∧
      (calculate_risk_score c t m hu n r).risk_score ≤ 1) ∧
    (∀ k : Factor, 0 ≤ (calculate_risk_score c t m hu n r).factor_risks k ∧
      (calculate_risk_score c t m hu n r).factor_risks k ≤ 1) ∧
    ((calculate_risk_score c t m hu n r).risk_level = "Low Risk" ↔
      (calculate_risk_score c t m hu n r).risk_score < 0.3) ∧
    ((calculate_risk_score c t m hu n r).risk_level = "Medium Risk" ↔
      0.3 ≤ (calculate_risk_score c t m hu n r).risk_score ∧
      (calculate_risk_score c t m hu n r).risk_score < 0.6) ∧
    ((calculate_risk_score c t m hu n r).risk_level = "High Risk" ↔
      0.6 ≤ (calculate_risk_score c t m hu n r).risk_score) ∧
    getRiskLevel 0.2999 = "Low Risk" ∧ getRiskLevel 0.3 = "Medium Risk" ∧
    getRiskLevel 0.5999 = "Medium Risk" ∧ getRiskLevel 0.6 = "High Risk" := by
  refine ⟨?_, ?_, ?_, ?_, ?_, ?_, ?_, ?_, ?_⟩
  · exact ⟨le_max_left 0 _, max_le zero_le_one (min_le_left 1 _)⟩
  · intro k
    cases k
    · exact calcTemperatureRisk_mem c t h1
    · exact calcMoistureRisk_mem c m h2
    · exact calcHumidityRisk_mem c hu h3
    · exact calcNdviRisk_mem c n h4
    · exact calcRainfallRisk_mem c r h5
  · exact (getRiskLevel_iff _).1
  · exact (getRiskLevel_iff _).2.1
  · exact (getRiskLevel_iff _).2.2
  · norm_num [getRiskLevel]
  · norm_num [getRiskLevel]
  · norm_num [getRiskLevel]
  · norm_num [getRiskLevel]

/-- A raw parsed catalog record as json.load produces it: every field may be
absent. -/
structure RawCropRecord where
  category : Option String := none
  optimal_temp : Option ℚ := none
  temp_tolerance : Option ℚ := none
  optimal_moisture : Option ℚ := none
  moisture_tolerance : Option ℚ := none
  optimal_humidity : Option ℚ := none
  humidity_tolerance : Option ℚ := none
  optimal_ndvi : Option ℚ := none
  ndvi_tolerance : Option ℚ := none
  optimal_rainfall : Option ℚ := none
  rainfall_tolerance : Option ℚ := none
deriving DecidableEq, Repr

/-- RiskCalculator.__init__ (and the identical loads in model.py,
recommendations.py and app.py): json.load parses the catalog and the result
is stored verbatim; no required-field check and no tolerance-positivity check
is performed anywhere in the repository. -/
def loadCropDatabase (crops : List (String × RawCropRecord)) :
    Except String (List (String × RawCropRecord)) :=
  Except.ok crops

/-- A crop record with a zero (non-positive) temperature tolerance and a
missing optimal_moisture field. -/
def badRecord : RawCropRecord :=
  { category := some "moderate_moisture"
    optimal_temp := some 20
    temp_tolerance := some 0 }

/-- A one-crop catalog built from the invalid record. -/
def badCatalog : List (String × RawCropRecord) :=
  [("badcrop", badRecord)]

/-- C1 counterexample: a catalog whose single crop has a non-positive
tolerance and a missing required field is loaded successfully — the load
returns it unchanged instead of failing with ConfigError. -/
theorem c1_load_no_validation_counterexample :
    badRecord.temp_tolerance = some 0 ∧
    badRecord.optimal_moisture = none ∧
    loadCropDatabase badCatalog = Except.ok badCatalog :=
  ⟨rfl, rfl, rfl⟩

/-- C1 amended: loading the crop catalog performs no validation at all — every
parsed record set is accepted unchanged and the load never fails, so missing
fields and non-positive tolerances reach the risk formulas unchecked. -/
theorem c1_load_accepts_any_catalog (crops : List (String × RawCropRecord)) :
    loadCropDatabase crops = Except.ok crops :=
  rfl

/-- Python substring containment: sub in s, i.e. sub is a contiguous
substring of s. -/
def strContains (s sub : String) : Bool :=
  s.toList.tails.any (fun t => sub.toList.isPrefixOf t)

/-- The exact 15-entry feature column order produced by
CropRiskModel.prepare_features and used by predict_risk. -/
def featureColumns : List String :=
  ["temperature", "moisture", "humidity", "ndvi", "rainfall",
   "crop_encoded", "crop_category_encoded",
   "temp_moisture", "humidity_ndvi", "temp_humidity",
   "temp_deviation", "moisture_deviation", "humidity_deviation",
   "ndvi_deviation", "rainfall_deviation"]

/-- The branch chain of CropRiskModel._create_risk_formula deciding which
factor bucket (if any) a feature name contributes to. -/
def bucketOf (feature : String) : Option Factor :=
  if feature = "temperature" then some .temperature
  else if feature = "moisture" then some .moisture
  else if feature = "humidity" then some .humidity
  else if feature = "ndvi" then some .ndvi
  else if feature = "rainfall" then some .rainfall
  else if strContains feature "temp_" && strContains feature "deviation" then
    some .temperature
  else if strContains feature "moisture_" && strContains feature "deviation" then
    some .moisture
  else if strContains feature "humidity_" && strContains feature "deviation" then
    some .humidity
  else if strContains feature "ndvi_" && strContains feature "deviation" then
    some .ndvi
  else if strContains feature "rainfall_" && strContains feature "deviation" then
    some .rainfall
  else none

/-- Add an importance value to the bucket selected for a feature name. -/
def addToBucket (w : Weights) (k : Option Factor) (v : ℚ) : Weights :=
  match k with
  | none => w
  | some .temperature => { w with temperature := w.temperature + v }
  | some .moisture => { w with moisture := w.moisture + v }
  | some .humidity => { w with humidity := w.humidity + v }
  | some .ndvi => { w with ndvi := w.ndvi + v }
  | some .rainfall => { w with rainfall := w.rainfall + v }

/-- The aggregation loop of _create_risk_formula: fold the per-feature
importances into the five factor buckets, starting from all-zero. -/
def rawBuckets (names : List String) (imps : List ℚ) : Weights :=
  (names.zip imps).foldl (fun w p => addToBucket w (bucketOf p.1) p.2) ⟨0, 0, 0, 0, 0⟩

/-- CropRiskModel._create_risk_formula: aggregate, then normalize by the
total when it is positive, else return the raw buckets. -/
def createRiskFormula (names : List String) (imps : List ℚ) : Weights :=
  let fw := rawBuckets names imps
  let total := wSum fw
  if total > 0 then
    ⟨fw.temperature / total, fw.moisture / total, fw.humidity / total,
     fw.ndvi / total, fw.rainfall / total⟩
  else
    fw

lemma bucketOf_raw_temperature : bucketOf "temperature" = some Factor.temperature := by decide
lemma bucketOf_raw_moisture : bucketOf "moisture" = some Factor.moisture := by decide
lemma bucketOf_raw_humidity : bucketOf "humidity" = some Factor.humidity := by decide
lemma bucketOf_raw_ndvi : bucketOf "ndvi" = some Factor.ndvi := by decide
lemma bucketOf_raw_rainfall : bucketOf "rainfall" = some Factor.rainfall := by decide
lemma bucketOf_crop_encoded : bucketOf "crop_encoded" = none := by decide
lemma bucketOf_crop_category : bucketOf "crop_category_encoded" = none := by decide
lemma bucketOf_temp_moisture : bucketOf "temp_moisture" = none := by decide
lemma bucketOf_humidity_ndvi : bucketOf "humidity_ndvi" = none := by decide
lemma bucketOf_temp_humidity : bucketOf "temp_humidity" = none := by decide
lemma bucketOf_temp_dev : bucketOf "temp_deviation" = some Factor.temperature := by decide
lemma bucketOf_moisture_dev : bucketOf "moisture_deviation" = some Factor.moisture := by decide
lemma bucketOf_humidity_dev : bucketOf "humidity_deviation" = some Factor.humidity := by decide
lemma bucketOf_ndvi_dev : bucketOf "ndvi_deviation" = some Factor.ndvi := by decide
lemma bucketOf_rainfall_dev : bucketOf "rainfall_deviation" = some Factor.rainfall := by decide

lemma rawBuckets_eval (t m h n r tc cc p1 p2 p3 td md hd nd rd : ℚ) :
    rawBuckets featureColumns
      [t, m, h, n, r, tc, cc, p1, p2, p3, td, md, hd, nd, rd] =
      ⟨t + td, m + md, h + hd, n + nd, r + rd⟩ := by
  simp only [rawBuckets, featureColumns, List.zip_cons_cons, List.zip_nil_right,
    List.foldl_cons, List.foldl_nil,
    bucketOf_raw_temperature, bucketOf_raw_moisture, bucketOf_raw_humidity,
    bucketOf_raw_ndvi, bucketOf_raw_rainfall, bucketOf_crop_encoded,
    bucketOf_crop_category, bucketOf_temp_moisture, bucketOf_humidity_ndvi,
    bucketOf_temp_humidity, bucketOf_temp_dev, bucketOf_moisture_dev,
    bucketOf_humidity_dev, bucketOf_ndvi_dev, bucketOf_rainfall_dev,
    addToBucket]
  norm_num [Weights.mk.injEq]

/-- C8: for any 15-entry importance vector over the trained feature columns
(entries nonnegative, as random-forest importances are), each raw factor
feature and its deviation feature land in the same factor bucket, the three
interaction features and the two categorical-code features contribute to no
bucket, and the five bucket sums are renormalized to total 1 when their total
is positive, while a zero total leaves all five weights at 0. -/
theorem c8_formula_weights_buckets
    (t m h n r tc cc p1 p2 p3 td md hd nd rd : ℚ)
    (ht : 0 ≤ t) (hm : 0 ≤ m) (hh : 0 ≤ h) (hn : 0 ≤ n) (hr : 0 ≤ r)
    (htd : 0 ≤ td) (hmd : 0 ≤ md) (hhd : 0 ≤ hd) (hnd : 0 ≤ nd)
    (hrd : 0 ≤ rd) :
    rawBuckets featureColumns
      [t, m, h, n, r, tc, cc, p1, p2, p3, td, md, hd, nd, rd] =
      ⟨t + td, m + md, h + hd, n + nd, r + rd⟩ ∧
    (0 < t + td + (m + md) + (h + hd) + (n + nd) + (r + rd) →
      createRiskFormula featureColumns
        [t, m, h, n, r, tc, cc, p1, p2, p3, td, md, hd, nd, rd] =
        ⟨(t + td) / (t + td + (m + md) + (h + hd) + (n + nd) + (r + rd)),
         (m + md) / (t + td + (m + md) + (h + hd) + (n + nd) + (r + rd)),
         (h + hd) / (t + td + (m + md) + (h + hd) + (n + nd) + (r + rd)),
         (n + nd) / (t + td + (m + md) + (h + hd) + (n + nd) + (r + rd)),
         (r + rd) / (t + td + (m + md) + (h + hd) + (n + nd) + (r + rd))⟩ ∧
      wSum (createRiskFormula featureColumns
        [t, m, h, n, r, tc, cc, p1, p2, p3, td, md, hd, nd, rd]) = 1) ∧
    (t + td + (m + md) + (h + hd) + (n + nd) + (r + rd) = 0 →
      createRiskFormula featureColumns
        [t, m, h, n, r, tc, cc, p1, p2, p3, td, md, hd, nd, rd] =
        ⟨0, 0, 0, 0, 0⟩) := by
  have hraw := rawBuckets_eval t m h n r tc cc p1 p2 p3 td md hd nd rd
  refine ⟨hraw, fun hpos => ?_, fun hzero => ?_⟩
  · have hform : createRiskFormula featureColumns
        [t, m, h, n, r, tc, cc, p1, p2, p3, td, md, hd, nd, rd] =
        ⟨(t + td) / (t + td + (m + md) + (h + hd) + (n + nd) + (r + rd)),
         (m + md) / (t + td + (m + md) + (h + hd) + (n + nd) + (r + rd)),
         (h + hd) / (t + td + (m + md) + (h + hd) + (n + nd) + (r + rd)),
         (n + nd) / (t + td + (m + md) + (h + hd) + (n + nd) + (r + rd)),
         (r + rd) / (t + td + (m + md) + (h + hd) + (n + nd) + (r + rd))⟩ := by
      simp only [createRiskFormula, hraw, wSum]
      rw [if_pos hpos]
    refine ⟨hform, ?_⟩
    rw [hform]
    simp only [wSum]
    field_simp
  · simp only [createRiskFormula, hraw, wSum]
    rw [if_neg (by linarith)]
    have h1 : t + td = 0 := by linarith
    have h2 : m + md = 0 := by linarith
    have h3 : h + hd = 0 := by linarith
    have h4 : n + nd = 0 := by linarith
    have h5 : r + rd = 0 := by linarith
    rw [h1, h2, h3, h4, h5]

theorem c8_formula_weights_buckets_witness :
    (0 ≤ (3 : ℚ) ∧ 0 ≤ (1 : ℚ) ∧ 0 ≤ (0 : ℚ)) ∧
    (rawBuckets featureColumns
      [3, 1, 0, 0, 0, 9, 9, 9, 9, 9, 1, 0, 0, 0, 0] = ⟨3 + 1, 1 + 0, 0 + 0, 0 + 0, 0 + 0⟩ ∧
    (0 < (3 : ℚ) + 1 + (1 + 0) + (0 + 0) + (0 + 0) + (0 + 0) →
      createRiskFormula featureColumns
        [3, 1, 0, 0, 0, 9, 9, 9, 9, 9, 1, 0, 0, 0, 0] =
        ⟨(3 + 1) / (3 + 1 + (1 + 0) + (0 + 0) + (0 + 0) + (0 + 0)),
         (1 + 0) / (3 + 1 + (1 + 0) + (0 + 0) + (0 + 0) + (0 + 0)),
         (0 + 0) / (3 + 1 + (1 + 0) + (0 + 0) + (0 + 0) + (0 + 0)),
         (0 + 0) / (3 + 1 + (1 + 0) + (0 + 0) + (0 + 0) + (0 + 0)),
         (0 + 0) / (3 + 1 + (1 + 0) + (0 + 0) + (0 + 0) + (0 + 0))⟩ ∧
      wSum (createRiskFormula featureColumns
        [3, 1, 0, 0, 0, 9, 9, 9, 9, 9, 1, 0, 0, 0, 0]) = 1) ∧
    ((3 : ℚ) + 1 + (1 + 0) + (0 + 0) + (0 + 0) + (0 + 0) = 0 →
      createRiskFormula featureColumns
        [3, 1, 0, 0, 0, 9, 9, 9, 9, 9, 1, 0, 0, 0, 0] = ⟨0, 0, 0, 0, 0⟩)) :=
  ⟨⟨by norm_num, by norm_num, le_refl 0⟩,
    c8_formula_weights_buckets 3 1 0 0 0 9 9 9 9 9 1 0 0 0 0
      (by norm_num) (by norm_num) (le_refl 0) (le_refl 0) (le_refl 0)
      (by norm_num) (le_refl 0) (le_refl 0) (le_refl 0) (le_refl 0)⟩

/-- The record returned by CropRiskModel.predict_risk (feature_importance
echo omitted; formula_weights summarizes it). -/
structure MLPrediction where
  risk_score : ℚ
  risk_level : String
  formula_weights : Weights
deriving Repr

/-- The learned-model state of CropRiskModel: the trained flag, the label
classes known to the fitted crop_encoder, the fitted scaler-plus-forest
pipeline abstracted as a function from the 15 raw features to the raw
prediction, the trained feature column order and the fitted feature
importances. -/
structure MLModel where
  is_trained : Bool
  classes : List String
  predictRaw : List ℚ → ℚ
  featureCols : List String
  importances : List ℚ

/-- LabelEncoder.transform on a single label: the index of the label among
the fitted classes, failing on an unseen label. -/
def transform (classes : List String) (label : String) : Except String ℕ :=
  match classes.indexOf? label with
  | some i => Except.ok i
  | none => Except.error "y contains previously unseen labels"

/-- CropRiskModel.predict_risk: raises when untrained, encodes the crop name
and its category through the fitted encoder (failing on unseen labels),
builds the 15-feature vector, clamps the raw prediction to [0,1] and derives
the formula weights from the feature importances. -/
def predict_risk (mdl : MLModel) (c : CropProfile) (cropName : String)
    (t mo hu n r : ℚ) : Except String MLPrediction :=
  if mdl.is_trained = false then
    Except.error "Model must be trained before making predictions"
  else
    match transform mdl.classes cropName with
    | Except.error e => Except.error e
    | Except.ok cropCode =>
      match transform mdl.classes c.category with
      | Except.error e => Except.error e
      | Except.ok catCode =>
        let features : List ℚ :=
          [t, mo, hu, n, r, (cropCode : ℚ), (catCode : ℚ),
           t * mo, hu * n, t * hu,
           |t - c.optimal_temp|, |mo - c.optimal_moisture|,
           |hu - c.optimal_humidity|, |n - c.optimal_ndvi|,
           |r - c.optimal_rainfall|]
        let raw := mdl.predictRaw features
        let risk_score := max 0 (min 1 raw)
        Except.ok
          { risk_score := risk_score
            risk_level := getRiskLevel risk_score
            formula_weights := createRiskFormula mdl.featureCols mdl.importances }

/-- The fields of the /api/assess-risk response that the arbiter logic
fills in. -/
structure AssessResponse where
  risk_score : ℚ
  risk_level : String
  formula_weights : Weights
  factor_risks : Factor → ℚ
  weakest_factor : Factor

/-- app.py assess_risk, arbitration portion: try the learned prediction and
swallow any failure; always run the rule-based calculation; take headline
score, level and weights from the learned prediction when it succeeded and
from the rule-based result otherwise; factor risks and weakest factor always
come from the rule-based result. -/
def assess_risk (mdl : MLModel) (c : CropProfile) (cropName : String)
    (t mo hu n r : ℚ) : AssessResponse :=
  let ml_prediction : Option MLPrediction :=
    match predict_risk mdl c cropName t mo hu n r with
    | Except.ok p => some p
    | Except.error _ => none
  let risk_analysis := calculate_risk_score c t mo hu n r
  match ml_prediction with
  | some p =>
    { risk_score := p.risk_score
      risk_level := p.risk_level
      formula_weights := p.formula_weights
      factor_risks := risk_analysis.factor_risks
      weakest_factor := risk_analysis.weakest_factor }
  | none =>
    { risk_score := risk_analysis.risk_score
      risk_level := risk_analysis.risk_level
      formula_weights := risk_analysis.weights
      factor_risks := risk_analysis.factor_risks
      weakest_factor := risk_analysis.weakest_factor }

/-- C2: for every model state, crop and observation the arbiter is a total
function (no predict failure can escape it); factor risks and weakest factor
always come from the rule-based computation; and the headline score, level
and weights come from the learned prediction exactly when predict succeeded,
otherwise from the rule-based result. -/
theorem c2_arbiter_fallback (mdl : MLModel) (c : CropProfile)
    (cropName : String) (t mo hu n r : ℚ) :
    (assess_risk mdl c cropName t mo hu n r).factor_risks =
      (calculate_risk_score c t mo hu n r).factor_risks ∧
    (assess_risk mdl c cropName t mo hu n r).weakest_factor =
      (calculate_risk_score c t mo hu n r).weakest_factor ∧
    (∀ p : MLPrediction, predict_risk mdl c cropName t mo hu n r = Except.ok p →
      (assess_risk mdl c cropName t mo hu n r).risk_score = p.risk_score ∧
      (assess_risk mdl c cropName t mo hu n r).risk_level = p.risk_level ∧
      (assess_risk mdl c cropName t mo hu n r).formula_weights = p.formula_weights) ∧
    (∀ e : String, predict_risk mdl c cropName t mo hu n r = Except.error e →
      (assess_risk mdl c cropName t mo hu n r).risk_score =
        (calculate_risk_score c t mo hu n r).risk_score ∧
      (assess_risk mdl c cropName t mo hu n r).risk_level =
        (calculate_risk_score c t mo hu n r).risk_level ∧
      (assess_risk mdl c cropName t mo hu n r).formula_weights =
        (calculate_risk_score c t mo hu n r).weights) := by
  cases hp : predict_risk mdl c cropName t mo hu n r with
  | ok p =>
    refine ⟨?_, ?_, fun q hq => ?_, fun e he => ?_⟩ <;>
      simp_all [assess_risk]
  | error e =>
    refine ⟨?_, ?_, fun q hq => ?_, fun e' he => ?_⟩ <;>
      simp_all [assess_risk]

/-- An untrained model state: predict_risk must fail on it and the arbiter
must fall back to the rule engine. -/
def untrainedModel : MLModel :=
  { is_trained := false
    classes := []
    predictRaw := fun _ => 0
    featureCols := featureColumns
    importances := [] }

theorem c2_arbiter_fallback_witness :
    predict_risk untrainedModel scenarioCrop "wheat" 25 0.5 70 0.6 1 =
      Except.error "Model must be trained before making predictions" ∧
    ((assess_risk untrainedModel scenarioCrop "wheat" 25 0.5 70 0.6 1).risk_score =
        (calculate_risk_score scenarioCrop 25 0.5 70 0.6 1).risk_score ∧
      (assess_risk untrainedModel scenarioCrop "wheat" 25 0.5 70 0.6 1).risk_level =
        (calculate_risk_score scenarioCrop 25 0.5 70 0.6 1).risk_level ∧
      (assess_risk untrainedModel scenarioCrop "wheat" 25 0.5 70 0.6 1).formula_weights =
        (calculate_risk_score scenarioCrop 25 0.5 70 0.6 1).weights) :=
  ⟨rfl,
    (c2_arbiter_fallback untrainedModel scenarioCrop "wheat" 25 0.5 70 0.6 1).2.2.2
      "Model must be trained before making predictions" rfl⟩

/-- The fields of a recommendation entry that the list-shape logic of
RecommendationEngine.generate_recommendations manipulates: the factor key
(or "general"), the sorting priority and the issue label. -/
structure Recommendation where
  factor : String
  priority : ℚ
  issue : String
deriving DecidableEq, Repr

/-- Descending-priority comparison used by
recommendations.sort(key=priority, reverse=True). -/
def recGE (a b : Recommendation) : Prop :=
  b.priority ≤ a.priority

instance : DecidableRel recGE :=
  fun a b => inferInstanceAs (Decidable (b.priority ≤ a.priority))

instance : IsTotal Recommendation recGE :=
  ⟨fun a b => le_total b.priority a.priority⟩

instance : IsTrans Recommendation recGE :=
  ⟨fun _ _ _ h1 h2 => le_trans h2 h1⟩

/-- The dictionary key naming each factor. -/
def factorName : Factor → String
  | .temperature => "temperature"
  | .moisture => "moisture"
  | .humidity => "humidity"
  | .ndvi => "ndvi"
  | .rainfall => "rainfall"

/-- Lookup of the optimal_<field> entry of a raw catalog record. -/
def rawOptimal (rec : RawCropRecord) : Factor → Option ℚ
  | .temperature => rec.optimal_temp
  | .moisture => rec.optimal_moisture
  | .humidity => rec.optimal_humidity
  | .ndvi => rec.optimal_ndvi
  | .rainfall => rec.optimal_rainfall

/-- Lookup of the <field>_tolerance entry of a raw catalog record. -/
def rawTolerance (rec : RawCropRecord) : Factor → Option ℚ
  | .temperature => rec.temp_tolerance
  | .moisture => rec.moisture_tolerance
  | .humidity => rec.humidity_tolerance
  | .ndvi => rec.ndvi_tolerance
  | .rainfall => rec.rainfall_tolerance

/-- The issue label chosen by the per-factor recommendation helpers: too-high,
too-low or in-range relative to optimal ± tolerance; ndvi only distinguishes
too-low from at-or-above-optimal. -/
def issueFor (factor : Factor) (current opt tolerance : ℚ) : String :=
  match factor with
  | .temperature =>
    if current > opt + tolerance then "High Temperature Stress"
    else if current < opt - tolerance then "Low Temperature Stress"
    else "Temperature within acceptable range"
  | .moisture =>
    if current < opt - tolerance then "Soil Moisture Deficit"
    else if current > opt + tolerance then "Excessive Soil Moisture"
    else "Soil moisture within optimal range"
  | .humidity =>
    if current > opt + tolerance then "High Humidity"
    else if current < opt - tolerance then "Low Humidity"
    else "Humidity within optimal range"
  | .ndvi =>
    if current < opt - tolerance then "Poor Vegetation Health (Low NDVI)"
    else "Good Vegetation Health"
  | .rainfall =>
    if current < opt - tolerance then "Rainfall Deficit"
    else if current > opt + tolerance then "Excessive Rainfall"
    else "Rainfall within optimal range"

/-- RecommendationEngine._analyze_factor: returns nothing when the
optimal_<field> key is absent; raises (KeyError) when the optimal key is
present but the tolerance key is absent; otherwise builds one recommendation
whose priority is the factor risk. -/
def analyzeFactor (factor : Factor) (risk_score : ℚ) (current : ℚ)
    (ranges : RawCropRecord) : Except String (Option Recommendation) :=
  match rawOptimal ranges factor with
  | none => Except.ok none
  | some opt =>
    match rawTolerance ranges factor with
    | none => Except.error "KeyError"
    | some tol =>
      Except.ok (some
        { factor := factorName factor
          priority := risk_score
          issue := issueFor factor current opt tol })

/-- The per-factor loop of generate_recommendations: visit the factor risks
in dict insertion order, analyze only risks above 0.3, keep the non-None
results in visit order. -/
def collectFactorRecs (ranges : RawCropRecord) (fr cur : Factor → ℚ) :
    List Factor → Except String (List Recommendation)
  | [] => Except.ok []
  | k :: ks =>
    if fr k > 0.3 then
      match analyzeFactor k (fr k) (cur k) ranges with
      | Except.error e => Except.error e
      | Except.ok none => collectFactorRecs ranges fr cur ks
      | Except.ok (some rcmd) =>
        match collectFactorRecs ranges fr cur ks with
        | Except.error e => Except.error e
        | Except.ok rest => Except.ok (rcmd :: rest)
    else
      collectFactorRecs ranges fr cur ks

/-- RecommendationEngine._get_general_recommendations: exactly one general
entry keyed by the overall risk level, with fixed priority 1.0 / 0.5 / 0.2. -/
def generalRec (analysis : RiskAnalysis) : Recommendation :=
  if analysis.risk_level = "High Risk" then
    ⟨"general", 1, "High Overall Risk"⟩
  else if analysis.risk_level = "Medium Risk" then
    ⟨"general", 0.5, "Moderate Risk"⟩
  else
    ⟨"general", 0.2, "Low Risk"⟩

/-- RecommendationEngine.generate_recommendations: collect the per-factor
recommendations, sort them by priority descending, then append the single
general recommendation after sorting. -/
def generate_recommendations (ranges : RawCropRecord) (analysis : RiskAnalysis)
    (current : Factor → ℚ) : Except String (List Recommendation) :=
  match collectFactorRecs ranges analysis.factor_risks current factorOrder with
  | Except.error e => Except.error e
  | Except.ok recs =>
    Except.ok (recs.insertionSort recGE ++ [generalRec analysis])

lemma collectFactorRecs_ok (ranges : RawCropRecord) (fr cur : Factor → ℚ) :
    ∀ ks : List Factor,
      (∀ k ∈ ks, (rawOptimal ranges k).isSome = true ∧
        (rawTolerance ranges k).isSome = true) →
      ∃ l : List Recommendation,
        collectFactorRecs ranges fr cur ks = Except.ok l ∧
        l.length = (ks.filter (fun k => decide (fr k > 0.3))).length ∧
        ∀ x ∈ l, ∃ k ∈ ks, fr k > 0.3 ∧ x.priority = fr k
  | [] => fun _ => ⟨[], rfl, rfl, by simp⟩
  | k :: ks => fun hall => by
    obtain ⟨l, hl, hlen, hmem⟩ := collectFactorRecs_ok ranges fr cur ks
      (fun j hj => hall j (List.mem_cons_of_mem _ hj))
    by_cases hk : fr k > 0.3
    · obtain ⟨opt, hopt⟩ :=
        Option.isSome_iff_exists.mp (hall k (List.mem_cons_self _ _)).1
      obtain ⟨tol, htol⟩ :=
        Option.isSome_iff_exists.mp (hall k (List.mem_cons_self _ _)).2
      refine ⟨⟨factorName k, fr k, issueFor k (cur k) opt tol⟩ :: l, ?_, ?_, ?_⟩
      · simp [collectFactorRecs, hk, analyzeFactor, hopt, htol, hl]
      · simp [List.filter_cons, hk, hlen]
      · intro x hx
        rcases List.mem_cons.mp hx with hx | hx
        · exact ⟨k, List.mem_cons_self _ _, hk, by rw [hx]⟩
        · obtain ⟨j, hj1, hj2, hj3⟩ := hmem x hx
          exact ⟨j, List.mem_cons_of_mem _ hj1, hj2, hj3⟩
    · refine ⟨l, ?_, ?_, ?_⟩
      · simp [collectFactorRecs, hk, hl]
      · simp [List.filter_cons, hk, hlen]
      · intro x hx
        obtain ⟨j, hj1, hj2, hj3⟩ := hmem x hx
        exact ⟨j, List.mem_cons_of_mem _ hj1, hj2, hj3⟩

/-- C5: for a catalog record containing all five optimal/tolerance fields,
the generated recommendation list has length (count of factor risks above
0.3) + 1; the factor recommendations form a sorted-descending-by-priority
block with priority equal to the factor risk; and the single general
recommendation (priority 1.0 High / 0.5 Medium / 0.2 Low) is appended after
the sorted block, hence is always last and not sorted into it. -/
theorem c5_recommendation_list_shape (ranges : RawCropRecord)
    (analysis : RiskAnalysis) (current : Factor → ℚ)
    (hall : ∀ k ∈ factorOrder, (rawOptimal ranges k).isSome = true ∧
      (rawTolerance ranges k).isSome = true) :
    ∃ sortedRecs : List Recommendation,
      generate_recommendations ranges analysis current =
        Except.ok (sortedRecs ++ [generalRec analysis]) ∧
      (sortedRecs ++ [generalRec analysis]).length =
        (factorOrder.filter
          (fun k => decide (analysis.factor_risks k > 0.3))).length + 1 ∧
      List.Sorted recGE sortedRecs ∧
      (sortedRecs ++ [generalRec analysis]).getLast? =
        some (generalRec analysis) ∧
      (∀ x ∈ sortedRecs, ∃ k : Factor,
        analysis.factor_risks k > 0.3 ∧ x.priority = analysis.factor_risks k) ∧
      (analysis.risk_level = "High Risk" → (generalRec analysis).priority = 1) ∧
      (analysis.risk_level = "Medium Risk" →
        (generalRec analysis).priority = 0.5) ∧
      (analysis.risk_level ≠ "High Risk" → analysis.risk_level ≠ "Medium Risk" →
        (generalRec analysis).priority = 0.2) := by
  obtain ⟨l, hl, hlen, hmem⟩ :=
    collectFactorRecs_ok ranges analysis.factor_risks current factorOrder hall
  refine ⟨l.insertionSort recGE, ?_, ?_, ?_, ?_, ?_, ?_, ?_, ?_⟩
  · simp [generate_recommendations, hl]
  · simp [List.length_insertionSort, hlen]
  · exact List.sorted_insertionSort recGE l
  · exact List.getLast?_concat _
  · intro x hx
    obtain ⟨k, _, hk2, hk3⟩ := hmem x ((List.mem_insertionSort recGE).mp hx)
    exact ⟨k, hk2, hk3⟩
  · intro hhigh
    simp [generalRec, hhigh]
  · intro hmed
    by_cases hhigh : analysis.risk_level = "High Risk"
    · rw [hhigh] at hmed
      simp at hmed
    · simp [generalRec, hhigh, hmed]
  · intro hhigh hmed
    simp [generalRec, hhigh, hmed]

theorem c3_rule_engine_bounds_levels_witness :
    (0 < scenarioCrop.temp_tolerance ∧ 0 < scenarioCrop.moisture_tolerance ∧
      0 < scenarioCrop.humidity_tolerance ∧ 0 < scenarioCrop.ndvi_tolerance ∧
      0 < scenarioCrop.rainfall_tolerance) ∧
    ((0 ≤ (calculate_risk_score scenarioCrop 35 0.2 70 0.6 1).risk_score ∧
      (calculate_risk_score scenarioCrop 35 0.2 70 0.6 1).risk_score ≤ 1) ∧
    (∀ k : Factor,
      0 ≤ (calculate_risk_score scenarioCrop 35 0.2 70 0.6 1).factor_risks k ∧
      (calculate_risk_score scenarioCrop 35 0.2 70 0.6 1).factor_risks k ≤ 1) ∧
    ((calculate_risk_score scenarioCrop 35 0.2 70 0.6 1).risk_level = "Low Risk" ↔
      (calculate_risk_score scenarioCrop 35 0.2 70 0.6 1).risk_score < 0.3) ∧
    ((calculate_risk_score scenarioCrop 35 0.2 70 0.6 1).risk_level = "Medium Risk" ↔
      0.3 ≤ (calculate_risk_score scenarioCrop 35 0.2 70 0.6 1).risk_score ∧
      (calculate_risk_score scenarioCrop 35 0.2 70 0.6 1).risk_score < 0.6) ∧
    ((calculate_risk_score scenarioCrop 35 0.2 70 0.6 1).risk_level = "High Risk" ↔
      0.6 ≤ (calculate_risk_score scenarioCrop 35 0.2 70 0.6 1).risk_score) ∧
    getRiskLevel 0.2999 = "Low Risk" ∧ getRiskLevel 0.3 = "Medium Risk" ∧
    getRiskLevel 0.5999 = "Medium Risk" ∧ getRiskLevel 0.6 = "High Risk") :=
  ⟨⟨by norm_num [scenarioCrop], by norm_num [scenarioCrop], by norm_num [scenarioCrop],
    by norm_num [scenarioCrop], by norm_num [scenarioCrop]⟩,
    c3_rule_engine_bounds_levels scenarioCrop 35 0.2 70 0.6 1
      (by norm_num [scenarioCrop]) (by norm_num [scenarioCrop])
      (by norm_num [scenarioCrop]) (by norm_num [scenarioCrop])
      (by norm_num [scenarioCrop])⟩

theorem c4_weakest_factor_first_argmax_witness :
    (∀ k : Factor,
      (calculate_risk_score scenarioCrop 35 0.2 70 0.6 1).factor_risks k ≤
        (calculate_risk_score scenarioCrop 35 0.2 70 0.6 1).factor_risks
          (calculate_risk_score scenarioCrop 35 0.2 70 0.6 1).weakest_factor) ∧
    (∀ k : Factor,
      factorIdx k <
        factorIdx (calculate_risk_score scenarioCrop 35 0.2 70 0.6 1).weakest_factor →
      (calculate_risk_score scenarioCrop 35 0.2 70 0.6 1).factor_risks k <
        (calculate_risk_score scenarioCrop 35 0.2 70 0.6 1).factor_risks
          (calculate_risk_score scenarioCrop 35 0.2 70 0.6 1).weakest_factor) :=
  c4_weakest_factor_first_argmax scenarioCrop 35 0.2 70 0.6 1

/-- A raw catalog record with all ten optimal/tolerance fields present,
mirroring scenarioCrop. -/
def fullRecord : RawCropRecord :=
  { category := some "temperature_sensitive"
    optimal_temp := some 20
    temp_tolerance := some 5
    optimal_moisture := some 0.6
    moisture_tolerance := some 0.2
    optimal_humidity := some 70
    humidity_tolerance := some 10
    optimal_ndvi := some 0.6
    ndvi_tolerance := some 0.2
    optimal_rainfall := some 1
    rainfall_tolerance := some 0.5 }

/-- A concrete assessment produced by the rule engine, used to instantiate
the recommendation-shape theorem. -/
def sampleAnalysis : RiskAnalysis :=
  calculate_risk_score scenarioCrop 35 0.2 70 0.6 1

theorem c5_recommendation_list_shape_witness :
    (∀ k ∈ factorOrder, (rawOptimal fullRecord k).isSome = true ∧
      (rawTolerance fullRecord k).isSome = true) ∧
    (∃ sortedRecs : List Recommendation,
      generate_recommendations fullRecord sampleAnalysis
          sampleAnalysis.current_values =
        Except.ok (sortedRecs ++ [generalRec sampleAnalysis]) ∧
      (sortedRecs ++ [generalRec sampleAnalysis]).length =
        (factorOrder.filter
          (fun k => decide (sampleAnalysis.factor_risks k > 0.3))).length + 1 ∧
      List.Sorted recGE sortedRecs ∧
      (sortedRecs ++ [generalRec sampleAnalysis]).getLast? =
        some (generalRec sampleAnalysis) ∧
      (∀ x ∈ sortedRecs, ∃ k : Factor,
        sampleAnalysis.factor_risks k > 0.3 ∧
        x.priority = sampleAnalysis.factor_risks k) ∧
      (sampleAnalysis.risk_level = "High Risk" →
        (generalRec sampleAnalysis).priority = 1) ∧
      (sampleAnalysis.risk_level = "Medium Risk" →
        (generalRec sampleAnalysis).priority = 0.5) ∧
      (sampleAnalysis.risk_level ≠ "High Risk" →
        sampleAnalysis.risk_level ≠ "Medium Risk" →
        (generalRec sampleAnalysis).priority = 0.2)) :=
  ⟨by decide,
    c5_recommendation_list_shape fullRecord sampleAnalysis
      sampleAnalysis.current_values (by decide)⟩

end HarvestSeer
